import Mathlib

/-
  Verification of the session and security-state core of the crudadmin
  repository, as implemented in src/crudadmin/session/manager.py
  (class SessionManager) over the fastcrud table layer, together with a
  spec-modelled login rate limiter (the file core/rate_limiter.py and the
  newer manager's track_login_attempt are not part of the source tree;
  only their import in core/__init__.py and their tests are).

  Modelling conventions:
  - datetimes and timedeltas are integers (seconds); `datetime.now` is an
    explicit `now : Time` argument threaded into each method that reads
    the clock, and `str(uuid4())` is an explicit `freshSid` argument
    (freshness is a hypothesis where a theorem needs it);
  - the admin database table is a list of rows; the fastcrud calls used by
    the manager (get_multi filtered by session_id/user_id/is_active/
    last_activity__lt, update filtered by session_id, create) are embedded
    directly; a `fail` flag on the database models a storage-layer
    exception: when it is set every storage call raises;
  - Python exceptions are `Except PyError`; a method that catches all
    exceptions and returns an ordinary value (validate_session) is the
    total function obtained by mapping the error case to that value;
  - pydantic partial updates (AdminSessionUpdate) carry `Option` fields;
    only the fields passed at the call site are set, matching fastcrud's
    exclude-unset update semantics.
-/

namespace CrudAdmin

/-- Instants and durations in seconds; models datetime/timedelta. -/
abbrev Time := Int

/-- The client of a starlette Request (`request.client`); `host` is the
socket address. -/
structure Client where
  host : String
deriving DecidableEq, Repr

/-- The part of a fastapi Request read by SessionManager: `request.client`
(possibly None) and the user-agent header (defaulted to "" by the code). -/
structure Request where
  client : Option Client
  user_agent : String
deriving DecidableEq, Repr

/-- Output of the external user_agents.parse library, modelled as an
abstract deterministic function of the user-agent string. -/
structure DeviceInfo where
  raw : String
deriving DecidableEq, Repr

/-- Models `user_agents.parse(user_agent)`: deterministic in its input. -/
def ua_parse (ua : String) : DeviceInfo := ⟨ua⟩

/-- A row of the admin_session table (create_admin_session_model in
session/models.py), which is also the shape of AdminSessionCreate built by
create_session. JSON bags are association lists of string pairs. -/
structure SessionRec where
  user_id : Int
  session_id : String
  ip_address : String
  user_agent : String
  device_info : DeviceInfo
  created_at : Time
  last_activity : Time
  is_active : Bool
  session_metadata : List (String × String)
deriving DecidableEq, Repr

/-- The pydantic AdminSessionUpdate schema: a partial update carrying only
the fields passed at the call site (`none` = field not set). The schema
file session/schemas.py is not in the source tree; its field set is taken
from the call sites in manager.py and the admin_session columns. -/
structure AdminSessionUpdate where
  is_active : Option Bool
  last_activity : Option Time
  session_metadata : Option (List (String × String))
deriving DecidableEq, Repr

/-- Apply a partial update to a row: set fields overwrite, unset fields
keep the row's value (fastcrud update with exclude-unset dump). -/
def applyUpd (u : AdminSessionUpdate) (r : SessionRec) : SessionRec :=
  { r with
    is_active := u.is_active.getD r.is_active
    last_activity := u.last_activity.getD r.last_activity
    session_metadata := u.session_metadata.getD r.session_metadata }

/-- The admin database holding the admin_session table. `fail = true`
models a storage layer that raises on every call. -/
structure DB where
  sessions : List SessionRec
  fail : Bool
deriving DecidableEq, Repr

/-- Python exceptions that the modelled code can raise or is claimed to
raise. `attributeError` is the AttributeError from evaluating
`request.client.host` when `request.client` is None; `invalidRequest` is a
deliberate invalid-request error (`ValueError("Invalid request client")`
in the repository's tests) — the code in src never raises it;
`storageError` is any exception from the storage layer. -/
inductive PyError where
  | attributeError
  | invalidRequest
  | storageError
deriving DecidableEq, Repr

/-- fastcrud `get_multi(db, session_id=sid, limit=1)["data"]`: the first
row whose session_id matches. -/
def crud_get_multi_sid (db : DB) (sid : String) :
    Except PyError (List SessionRec) :=
  if db.fail then Except.error PyError.storageError
  else Except.ok ((db.sessions.filter (fun r => r.session_id = sid)).take 1)

/-- fastcrud `get_multi(db, user_id=uid, is_active=True)["data"]`. -/
def crud_get_multi_user_active (db : DB) (uid : Int) :
    Except PyError (List SessionRec) :=
  if db.fail then Except.error PyError.storageError
  else Except.ok (db.sessions.filter (fun r => r.user_id = uid ∧ r.is_active))

/-- fastcrud `get_multi(db, is_active=True, last_activity__lt=th)["data"]`. -/
def crud_get_multi_expired (db : DB) (th : Time) :
    Except PyError (List SessionRec) :=
  if db.fail then Except.error PyError.storageError
  else Except.ok (db.sessions.filter (fun r => r.is_active ∧ r.last_activity < th))

/-- fastcrud `update(db, session_id=sid, object=u)`: apply the partial
update to every row whose session_id matches. -/
def crud_update (db : DB) (sid : String) (u : AdminSessionUpdate) :
    Except PyError DB :=
  if db.fail then Except.error PyError.storageError
  else Except.ok
    ⟨db.sessions.map (fun r => if r.session_id = sid then applyUpd u r else r),
     db.fail⟩

/-- fastcrud `create(db, object=r)`: insert a new row. -/
def crud_create (db : DB) (r : SessionRec) : Except PyError DB :=
  if db.fail then Except.error PyError.storageError
  else Except.ok ⟨db.sessions ++ [r], db.fail⟩

/-- SessionManager configuration and mutable state: the three timedeltas
and the last_cleanup timestamp set in __init__. -/
structure SessionManager where
  max_sessions : Int
  session_timeout : Time
  cleanup_interval : Time
  last_cleanup : Time
deriving DecidableEq, Repr

/-- SessionManager.__init__: timedelta(minutes=m) is m * 60 seconds and
last_cleanup starts at the construction time. -/
def SessionManager.init (now : Time) (max_sessions_per_user : Int)
    (session_timeout_minutes cleanup_interval_minutes : Int) : SessionManager :=
  { max_sessions := max_sessions_per_user
    session_timeout := 60 * session_timeout_minutes
    cleanup_interval := 60 * cleanup_interval_minutes
    last_cleanup := now }

/-- Models `datetime.isoformat()` of an instant, used for metadata stamps. -/
def isoStr (t : Time) : String := toString t

/-- The AdminSessionUpdate built by SessionManager.terminate_session:
is_active=False plus the terminated_at / termination_reason stamp. The
reason is always the literal "manual_termination". -/
def terminate_update (now : Time) : AdminSessionUpdate :=
  { is_active := some false
    last_activity := none
    session_metadata := some
      [("terminated_at", isoStr now), ("termination_reason", "manual_termination")] }

/-- SessionManager.terminate_session. The Python method is annotated
`-> None` and has no return statement, so its value is None, modelled as
`none : Option Bool` (it is not a boolean). -/
def terminate_session (now : Time) (db : DB) (sid : String) :
    Except PyError (Option Bool × DB) :=
  (crud_update db sid (terminate_update now)).map (fun db2 => (none, db2))

/-- The AdminSessionUpdate built by the activity-refresh paths:
`AdminSessionUpdate(last_activity=now)` — only last_activity is set. -/
def activity_update (now : Time) : AdminSessionUpdate :=
  { is_active := none
    last_activity := some now
    session_metadata := none }

/-- SessionManager.update_activity: set last_activity to now. -/
def update_activity (now : Time) (db : DB) (sid : String) : Except PyError DB :=
  crud_update db sid (activity_update now)

/-- SessionManager.get_user_active_sessions. -/
def get_user_active_sessions (db : DB) (uid : Int) :
    Except PyError (List SessionRec) :=
  crud_get_multi_user_active db uid

/-- The AdminSessionCreate object `session_data` built by create_session:
is_active=True, created_at = last_activity = now, metadata defaulted to
the empty bag (`metadata or {}`). -/
def session_data_of (now : Time) (freshSid : String) (host : String)
    (req : Request) (uid : Int) (md : Option (List (String × String))) :
    SessionRec :=
  { user_id := uid
    session_id := freshSid
    ip_address := host
    user_agent := req.user_agent
    device_info := ua_parse req.user_agent
    created_at := now
    last_activity := now
    is_active := true
    session_metadata := md.getD [] }

/-- The eviction loop of create_session: `for session in existing_sessions:
terminate_session(...)` — it terminates every listed session. -/
def terminate_all (now : Time) : DB → List SessionRec → Except PyError DB
  | db, [] => Except.ok db
  | db, s :: rest =>
      match terminate_session now db s.session_id with
      | Except.error e => Except.error e
      | Except.ok r => terminate_all now r.2 rest

/-- SessionManager.create_session. `request.client.host` is evaluated while
building session_data, before any storage access: a request with no client
raises AttributeError there. If the user's active-session count is at or
over max_sessions, every existing active session is terminated; then the
new row is inserted and the session_data object returned. The outer
try/except logs and re-raises, so every exception propagates. -/
def create_session (mgr : SessionManager) (now : Time) (freshSid : String)
    (req : Request) (uid : Int) (md : Option (List (String × String)))
    (db : DB) : Except PyError (SessionRec × DB) :=
  match req.client with
  | none => Except.error PyError.attributeError
  | some c =>
      match get_user_active_sessions db uid with
      | Except.error e => Except.error e
      | Except.ok existing =>
        match (if mgr.max_sessions ≤ (existing.length : Int) then
                 terminate_all now db existing
               else
                 Except.ok db) with
        | Except.error e => Except.error e
        | Except.ok db1 =>
          match crud_create db1 (session_data_of now freshSid c.host req uid md) with
          | Except.error e => Except.error e
          | Except.ok db2 =>
              Except.ok (session_data_of now freshSid c.host req uid md, db2)

/-- Body of SessionManager.validate_session without the outer exception
handler: look up the session, reject missing or inactive records, on
timeout terminate and reject, otherwise optionally refresh last_activity
and accept. -/
def validate_session_core (mgr : SessionManager) (now : Time) (db : DB)
    (sid : String) (refresh : Bool) : Except PyError (Bool × DB) :=
  match crud_get_multi_sid db sid with
  | Except.error e => Except.error e
  | Except.ok [] => Except.ok (false, db)
  | Except.ok (session :: _) =>
    if !session.is_active then
      Except.ok (false, db)
    else if mgr.session_timeout < now - session.last_activity then
      match terminate_session now db sid with
      | Except.error e => Except.error e
      | Except.ok r => Except.ok (false, r.2)
    else if refresh then
      match crud_update db sid (activity_update now) with
      | Except.error e => Except.error e
      | Except.ok db2 => Except.ok (true, db2)
    else
      Except.ok (true, db)

/-- SessionManager.validate_session: the body wrapped in handlers that
catch every exception, log it, and return False — a storage exception is
reported as an ordinary validation failure, never re-raised. -/
def validate_session (mgr : SessionManager) (now : Time) (db : DB)
    (sid : String) (refresh : Bool) : Bool × DB :=
  match validate_session_core mgr now db sid refresh with
  | Except.ok r => r
  | Except.error _ => (false, db)

/-- The AdminSessionUpdate built inside cleanup_expired_sessions:
is_active=False plus a session_timeout stamp. (The Python passes the stamp
through a `metadata=` keyword; the schema file is not in the source tree,
so the stamp's delivery is modelled from the spec's "metadata stamp" —
only is_active matters to the claims.) -/
def cleanup_sweep_update (now : Time) : AdminSessionUpdate :=
  { is_active := some false
    last_activity := none
    session_metadata := some
      [("terminated_at", isoStr now), ("termination_reason", "session_timeout")] }

/-- The sweep loop of cleanup_expired_sessions over the expired rows. -/
def sweep_terminate (now : Time) : DB → List SessionRec → Except PyError DB
  | db, [] => Except.ok db
  | db, s :: rest =>
      match crud_update db s.session_id (cleanup_sweep_update now) with
      | Except.error e => Except.error e
      | Except.ok db2 => sweep_terminate now db2 rest

/-- SessionManager.cleanup_expired_sessions: gated to return immediately
when now - last_cleanup < cleanup_interval; otherwise fetch the active
rows with last_activity older than now - session_timeout, deactivate each,
and set last_cleanup := now. -/
def cleanup_expired_sessions (mgr : SessionManager) (now : Time) (db : DB) :
    Except PyError (SessionManager × DB) :=
  if now - mgr.last_cleanup < mgr.cleanup_interval then
    Except.ok (mgr, db)
  else
    match crud_get_multi_expired db (now - mgr.session_timeout) with
    | Except.error e => Except.error e
    | Except.ok expired =>
      match sweep_terminate now db expired with
      | Except.error e => Except.error e
      | Except.ok db2 => Except.ok ({ mgr with last_cleanup := now }, db2)

/-- The metadata bag written by handle_concurrent_login on another active
session: the existing bag plus a concurrent_login marker holding the
timestamp and the new session id. -/
def concurrent_stamp (now : Time) (current_sid : String)
    (md : List (String × String)) : List (String × String) :=
  md ++ [("concurrent_login", isoStr now ++ "," ++ current_sid)]

/-- The loop of handle_concurrent_login over the user's active sessions:
every session other than the current one gets its metadata stamped (no
other field is touched). -/
def conc_loop (now : Time) (current_sid : String) :
    DB → List SessionRec → Except PyError DB
  | db, [] => Except.ok db
  | db, s :: rest =>
      if s.session_id ≠ current_sid then
        match crud_update db s.session_id
          { is_active := none
            last_activity := none
            session_metadata := some (concurrent_stamp now current_sid s.session_metadata) } with
        | Except.error e => Except.error e
        | Except.ok db2 => conc_loop now current_sid db2 rest
      else
        conc_loop now current_sid db rest

/-- SessionManager.handle_concurrent_login. -/
def handle_concurrent_login (now : Time) (db : DB) (uid : Int)
    (current_sid : String) : Except PyError DB :=
  match get_user_active_sessions db uid with
  | Except.error e => Except.error e
  | Except.ok active => conc_loop now current_sid db active

/-- Modelled from the spec: a rate-limit record (`count`, `first_attempt`)
as stored by the limiter in core/rate_limiter.py, which is not in the
source tree (core/__init__.py imports it and the tests exercise it). -/
structure RLEntry where
  count : Nat
  first_attempt : Time
deriving DecidableEq, Repr

/-- Modelled from the spec: the limiter's key/value store. -/
structure RLStore where
  entries : List (String × RLEntry)
deriving DecidableEq, Repr

/-- Modelled from the spec: `get_count(key) -> int`, with 0 for an absent
key. -/
def rl_get_count (st : RLStore) (key : String) : Nat :=
  match st.entries.lookup key with
  | some e => e.count
  | none => 0

/-- Modelled from the spec: store an entry under a key, replacing any
existing one. -/
def rl_put (st : RLStore) (key : String) (e : RLEntry) : RLStore :=
  ⟨(key, e) :: st.entries.filter (fun p => p.1 ≠ key)⟩

/-- Modelled from the spec: `delete(key)`, used on login success. -/
def rl_delete (st : RLStore) (key : String) : RLStore :=
  ⟨st.entries.filter (fun p => p.1 ≠ key)⟩

/-- Modelled from the spec: `increment(key, amount, window_seconds) ->
new_count` — first call stores {count: amount, first_attempt: now}; within
the window it increments; once the window has elapsed it resets to a fresh
window with count = amount. -/
def rl_increment (now window : Time) (st : RLStore) (key : String)
    (amount : Nat) : Nat × RLStore :=
  match st.entries.lookup key with
  | none => (amount, rl_put st key ⟨amount, now⟩)
  | some e =>
      if window < now - e.first_attempt then
        (amount, rl_put st key ⟨amount, now⟩)
      else
        (e.count + amount, rl_put st key ⟨e.count + amount, e.first_attempt⟩)

/-- The ip-axis counter key for a login attempt. -/
def rl_ip_key (ip : String) : String := "login_attempts:ip:" ++ ip

/-- The username-axis counter key for a login attempt. -/
def rl_user_key (username : String) : String :=
  "login_attempts:username:" ++ username

/-- Modelled from the spec: `track_login_attempt(ip, username, success) ->
(allowed, remaining)` of the newer session manager (not in the source
tree). On success both counters are deleted and (true, none) returned. On
failure both counters are incremented by 1 with the configured window,
`effective_count = max(ip_count, username_count)`, `allowed =
effective_count <= max_attempts`, and `remaining = max(0, max_attempts -
effective_count)` (automatic under truncated Nat subtraction). -/
def track_login_attempt (max_attempts : Nat) (window now : Time)
    (st : RLStore) (ip username : String) (success : Bool) :
    (Bool × Option Nat) × RLStore :=
  if success then
    ((true, none), rl_delete (rl_delete st (rl_ip_key ip)) (rl_user_key username))
  else
    let r1 := rl_increment now window st (rl_ip_key ip) 1
    let r2 := rl_increment now window r1.2 (rl_user_key username) 1
    let eff := max r1.1 r2.1
    ((decide (eff ≤ max_attempts), some (max_attempts - eff)), r2.2)

/-- Iterate n failed login attempts for a fixed (ip, username) pair at a
fixed instant. -/
def run_failures (max_attempts : Nat) (window now : Time)
    (ip username : String) : Nat → RLStore → RLStore
  | 0, st => st
  | n + 1, st =>
      run_failures max_attempts window now ip username n
        (track_login_attempt max_attempts window now st ip username false).2

/-- The SessionManager operations, as one step type (for the invariant
that terminated records stay terminated). -/
inductive Op where
  | createOp (mgr : SessionManager) (now : Time) (freshSid : String)
      (req : Request) (uid : Int) (md : Option (List (String × String)))
  | validateOp (mgr : SessionManager) (now : Time) (sid : String) (refresh : Bool)
  | updateActivityOp (now : Time) (sid : String)
  | terminateOp (now : Time) (sid : String)
  | cleanupOp (mgr : SessionManager) (now : Time)
  | concurrentOp (now : Time) (uid : Int) (sid : String)

/-- The database state after running one SessionManager operation; an
operation that raises leaves the modelled database as it was (with the
failure flag set, the very first storage call raises, so no partial write
precedes the exception). -/
def applyOp (op : Op) (db : DB) : DB :=
  match op with
  | Op.createOp mgr now fs req uid md =>
      match create_session mgr now fs req uid md db with
      | Except.ok r => r.2
      | Except.error _ => db
  | Op.validateOp mgr now sid refresh => (validate_session mgr now db sid refresh).2
  | Op.updateActivityOp now sid =>
      match update_activity now db sid with
      | Except.ok db2 => db2
      | Except.error _ => db
  | Op.terminateOp now sid =>
      match terminate_session now db sid with
      | Except.ok r => r.2
      | Except.error _ => db
  | Op.cleanupOp mgr now =>
      match cleanup_expired_sessions mgr now db with
      | Except.ok r => r.2
      | Except.error _ => db
  | Op.concurrentOp now uid sid =>
      match handle_concurrent_login now db uid sid with
      | Except.ok db2 => db2
      | Except.error _ => db

/-! Helper lemmas about the partial-update primitive. -/

theorem applyUpd_session_id (u : AdminSessionUpdate) (r : SessionRec) :
    (applyUpd u r).session_id = r.session_id := rfl

theorem applyUpd_user_id (u : AdminSessionUpdate) (r : SessionRec) :
    (applyUpd u r).user_id = r.user_id := rfl

theorem applyUpd_terminate_is_active (now : Time) (r : SessionRec) :
    (applyUpd (terminate_update now) r).is_active = false := rfl

theorem applyUpd_sweep_is_active (now : Time) (r : SessionRec) :
    (applyUpd (cleanup_sweep_update now) r).is_active = false := rfl

theorem applyUpd_terminate_idem (now : Time) (r : SessionRec) :
    applyUpd (terminate_update now) (applyUpd (terminate_update now) r) =
      applyUpd (terminate_update now) r := rfl

theorem applyUpd_sweep_idem (now : Time) (r : SessionRec) :
    applyUpd (cleanup_sweep_update now) (applyUpd (cleanup_sweep_update now) r) =
      applyUpd (cleanup_sweep_update now) r := rfl

/-- Closed form of the eviction loop on a non-failing database: every row
whose session_id occurs among the listed sessions is terminated, all other
rows are untouched. -/
theorem terminate_all_eq (now : Time) (L l : List SessionRec) :
    terminate_all now ⟨l, false⟩ L =
      Except.ok ⟨l.map (fun r =>
        if (L.map (fun s => s.session_id)).contains r.session_id
        then applyUpd (terminate_update now) r else r), false⟩ := by
  induction L generalizing l with
  | nil =>
      simp [terminate_all]
  | cons s rest ih =>
      rw [show terminate_all now ⟨l, false⟩ (s :: rest) =
            terminate_all now ⟨l.map (fun r =>
              if r.session_id = s.session_id
              then applyUpd (terminate_update now) r else r), false⟩ rest from rfl]
      rw [ih]
      congr 2
      rw [List.map_map]
      refine List.map_congr_left (fun r _ => ?_)
      by_cases h : r.session_id = s.session_id
      · simp only [Function.comp, if_pos h, applyUpd_session_id, List.map_cons,
          List.contains_cons, h]
        by_cases h2 : (rest.map (fun x => x.session_id)).contains s.session_id
        · simp [h2, applyUpd_terminate_idem]
        · simp [h2, applyUpd_terminate_idem]
      · simp only [Function.comp, if_neg h, List.map_cons, List.contains_cons]
        have hb : (r.session_id == s.session_id) = false := by
          exact beq_eq_false_iff_ne.mpr h
        simp [hb]

/-- The session_ids that create_session's eviction step terminates: those
of the user's active sessions. -/
def evictSids (uid : Int) (l : List SessionRec) : List String :=
  (l.filter (fun x => x.user_id = uid ∧ x.is_active)).map (fun s => s.session_id)

/-- The per-row effect of create_session on the pre-existing rows: when the
user's active-session count is at or over the cap, every row whose
session_id belongs to one of those active sessions is terminated; otherwise
rows are untouched. -/
def evict (mgr : SessionManager) (now : Time) (uid : Int) (l : List SessionRec)
    (r : SessionRec) : SessionRec :=
  if mgr.max_sessions ≤ ((l.filter (fun x => x.user_id = uid ∧ x.is_active)).length : Int)
      ∧ (evictSids uid l).contains r.session_id
  then applyUpd (terminate_update now) r else r

/-- Closed form of create_session on a non-failing database and a request
with a client: it applies the eviction step to the existing rows and
appends the new session_data row, returning the session_data object. -/
theorem create_session_run (mgr : SessionManager) (now : Time) (freshSid : String)
    (req : Request) (uid : Int) (md : Option (List (String × String)))
    (l : List SessionRec) (c : Client) (hc : req.client = some c) :
    create_session mgr now freshSid req uid md ⟨l, false⟩ =
      Except.ok (session_data_of now freshSid c.host req uid md,
        ⟨l.map (evict mgr now uid l) ++
           [session_data_of now freshSid c.host req uid md], false⟩) := by
  obtain ⟨cl, ua⟩ := req
  cases hc
  by_cases hcap : mgr.max_sessions ≤
      ((l.filter (fun x => x.user_id = uid ∧ x.is_active)).length : Int)
  · rw [show create_session mgr now freshSid ⟨some c, ua⟩ uid md ⟨l, false⟩ =
        (match (if mgr.max_sessions ≤
                  ((l.filter (fun x => x.user_id = uid ∧ x.is_active)).length : Int)
                then terminate_all now ⟨l, false⟩
                  (l.filter (fun x => x.user_id = uid ∧ x.is_active))
                else Except.ok ⟨l, false⟩) with
         | Except.error e => Except.error e
         | Except.ok db1 =>
            match crud_create db1
              (session_data_of now freshSid c.host ⟨some c, ua⟩ uid md) with
            | Except.error e => Except.error e
            | Except.ok db2 => Except.ok
                (session_data_of now freshSid c.host ⟨some c, ua⟩ uid md, db2)) from rfl]
    rw [if_pos hcap, terminate_all_eq]
    have hmap : l.map (fun r =>
          if ((l.filter (fun x => x.user_id = uid ∧ x.is_active)).map
                (fun s => s.session_id)).contains r.session_id
          then applyUpd (terminate_update now) r else r) =
        l.map (evict mgr now uid l) := by
      refine List.map_congr_left (fun r _ => ?_)
      simp only [evict, evictSids]
      by_cases hq : ((l.filter (fun x => x.user_id = uid ∧ x.is_active)).map
          (fun s => s.session_id)).contains r.session_id
      · rw [if_pos hq, if_pos ⟨hcap, hq⟩]
      · rw [if_neg hq, if_neg (fun hand => hq hand.2)]
    rw [hmap]
    rfl
  · rw [show create_session mgr now freshSid ⟨some c, ua⟩ uid md ⟨l, false⟩ =
        (match (if mgr.max_sessions ≤
                  ((l.filter (fun x => x.user_id = uid ∧ x.is_active)).length : Int)
                then terminate_all now ⟨l, false⟩
                  (l.filter (fun x => x.user_id = uid ∧ x.is_active))
                else Except.ok ⟨l, false⟩) with
         | Except.error e => Except.error e
         | Except.ok db1 =>
            match crud_create db1
              (session_data_of now freshSid c.host ⟨some c, ua⟩ uid md) with
            | Except.error e => Except.error e
            | Except.ok db2 => Except.ok
                (session_data_of now freshSid c.host ⟨some c, ua⟩ uid md, db2)) from rfl]
    rw [if_neg hcap]
    have hmap : l.map (evict mgr now uid l) = l := by
      have h2 : ∀ r ∈ l, evict mgr now uid l r = r := by
        intro r _
        simp only [evict]
        exact if_neg (fun hand => hcap hand.1)
      rw [List.map_congr_left h2]
      simp
    rw [hmap]
    rfl

/-- Closed form of the cleanup sweep loop on a non-failing database. -/
theorem sweep_terminate_eq (now : Time) (L l : List SessionRec) :
    sweep_terminate now ⟨l, false⟩ L =
      Except.ok ⟨l.map (fun r =>
        if (L.map (fun s => s.session_id)).contains r.session_id
        then applyUpd (cleanup_sweep_update now) r else r), false⟩ := by
  induction L generalizing l with
  | nil =>
      simp [sweep_terminate]
  | cons s rest ih =>
      rw [show sweep_terminate now ⟨l, false⟩ (s :: rest) =
            sweep_terminate now ⟨l.map (fun r =>
              if r.session_id = s.session_id
              then applyUpd (cleanup_sweep_update now) r else r), false⟩ rest from rfl]
      rw [ih]
      congr 2
      rw [List.map_map]
      refine List.map_congr_left (fun r _ => ?_)
      by_cases h : r.session_id = s.session_id
      · simp only [Function.comp, if_pos h, applyUpd_session_id, List.map_cons,
          List.contains_cons, h]
        by_cases h2 : (rest.map (fun x => x.session_id)).contains s.session_id
        · simp [h2, applyUpd_sweep_idem]
        · simp [h2, applyUpd_sweep_idem]
      · simp only [Function.comp, if_neg h, List.map_cons, List.contains_cons]
        have hb : (r.session_id == s.session_id) = false := by
          exact beq_eq_false_iff_ne.mpr h
        simp [hb]

/-! Inactivity preservation: machinery for the terminated-is-terminal
invariant. A database step keeps inactive rows inactive when every row
that was inactive (by position) is still present and inactive afterwards. -/

def keepsInactive (db db2 : DB) : Prop :=
  ∀ i : Nat, ((db.sessions[i]?).map (fun r => r.is_active)) = some false →
    ((db2.sessions[i]?).map (fun r => r.is_active)) = some false

theorem keepsInactive_refl (db : DB) : keepsInactive db db := fun _ h => h

theorem keepsInactive_trans {a b c : DB} (h1 : keepsInactive a b)
    (h2 : keepsInactive b c) : keepsInactive a c := fun i h => h2 i (h1 i h)

/-- A partial update whose is_active field is unset or false keeps every
inactive row inactive, whatever rows it matches. -/
theorem keepsInactive_of_update {db : DB} {sid : String} {u : AdminSessionUpdate}
    (hu : u.is_active = none ∨ u.is_active = some false) {db2 : DB}
    (h : crud_update db sid u = Except.ok db2) : keepsInactive db db2 := by
  obtain ⟨l, fl⟩ := db
  cases fl with
  | true => exact absurd h (by simp [crud_update])
  | false =>
      rw [show crud_update ⟨l, false⟩ sid u = Except.ok ⟨l.map (fun r =>
            if r.session_id = sid then applyUpd u r else r), false⟩ from rfl] at h
      injection h with h
      subst h
      intro i hi
      rcases hl : l[i]? with _ | r
      · rw [hl] at hi; cases hi
      · rw [hl] at hi
        have hia : r.is_active = false := by injection hi
        rw [List.getElem?_map, hl]
        show some (if r.session_id = sid then applyUpd u r else r).is_active = some false
        by_cases hs : r.session_id = sid
        · rw [if_pos hs]
          unfold applyUpd
          rcases hu with hu | hu <;> simp [hu, hia]
        · rw [if_neg hs, hia]

/-- Inserting a row keeps every inactive row inactive. -/
theorem keepsInactive_of_create {db : DB} {r : SessionRec} {db2 : DB}
    (h : crud_create db r = Except.ok db2) : keepsInactive db db2 := by
  obtain ⟨l, fl⟩ := db
  cases fl with
  | true => exact absurd h (by simp [crud_create])
  | false =>
      rw [show crud_create ⟨l, false⟩ r = Except.ok ⟨l ++ [r], false⟩ from rfl] at h
      injection h with h
      subst h
      intro i hi
      rcases hl : l[i]? with _ | x
      · rw [hl] at hi; cases hi
      · rw [hl] at hi
        have hlen : i < l.length := by
          have h2 := List.getElem?_eq_some.mp hl
          exact h2.1
        rw [show (l ++ [r])[i]? = l[i]? from by
          rw [List.getElem?_append]
          exact if_pos hlen]
        rw [hl]
        exact hi

theorem keepsInactive_terminate_session {now : Time} {db : DB} {sid : String}
    {r : Option Bool × DB} (h : terminate_session now db sid = Except.ok r) :
    keepsInactive db r.2 := by
  unfold terminate_session at h
  cases hcu : crud_update db sid (terminate_update now) with
  | error e => rw [hcu] at h; cases h
  | ok dbx =>
      rw [hcu] at h
      injection h with h
      subst h
      exact keepsInactive_of_update (Or.inr rfl) hcu

theorem keepsInactive_terminate_all {now : Time} {L : List SessionRec}
    {db db2 : DB} (h : terminate_all now db L = Except.ok db2) :
    keepsInactive db db2 := by
  induction L generalizing db with
  | nil =>
      unfold terminate_all at h
      injection h with h
      subst h
      exact keepsInactive_refl _
  | cons s rest ih =>
      unfold terminate_all at h
      cases hts : terminate_session now db s.session_id with
      | error e => rw [hts] at h; cases h
      | ok r =>
          rw [hts] at h
          exact keepsInactive_trans (keepsInactive_terminate_session hts) (ih h)

theorem keepsInactive_sweep_terminate {now : Time} {L : List SessionRec}
    {db db2 : DB} (h : sweep_terminate now db L = Except.ok db2) :
    keepsInactive db db2 := by
  induction L generalizing db with
  | nil =>
      unfold sweep_terminate at h
      injection h with h
      subst h
      exact keepsInactive_refl _
  | cons s rest ih =>
      unfold sweep_terminate at h
      cases hcu : crud_update db s.session_id (cleanup_sweep_update now) with
      | error e => rw [hcu] at h; cases h
      | ok dbx =>
          rw [hcu] at h
          exact keepsInactive_trans (keepsInactive_of_update (Or.inr rfl) hcu) (ih h)

theorem keepsInactive_conc_loop {now : Time} {cur : String} {L : List SessionRec}
    {db db2 : DB} (h : conc_loop now cur db L = Except.ok db2) :
    keepsInactive db db2 := by
  induction L generalizing db with
  | nil =>
      unfold conc_loop at h
      injection h with h
      subst h
      exact keepsInactive_refl _
  | cons s rest ih =>
      unfold conc_loop at h
      by_cases hne : s.session_id ≠ cur
      · rw [if_pos hne] at h
        cases hcu : crud_update db s.session_id
            { is_active := none
              last_activity := none
              session_metadata := some (concurrent_stamp now cur s.session_metadata) } with
        | error e => rw [hcu] at h; cases h
        | ok dbx =>
            rw [hcu] at h
            exact keepsInactive_trans (keepsInactive_of_update (Or.inl rfl) hcu) (ih h)
      · rw [if_neg hne] at h
        exact ih h

theorem keepsInactive_create_session {mgr : SessionManager} {now : Time}
    {fs : String} {req : Request} {uid : Int}
    {md : Option (List (String × String))} {db : DB} {sd : SessionRec} {db2 : DB}
    (h : create_session mgr now fs req uid md db = Except.ok (sd, db2)) :
    keepsInactive db db2 := by
  unfold create_session at h
  split at h
  · cases h
  · split at h
    · cases h
    · rename_i c existing hg
      split at h
      · cases h
      · rename_i db1 hev
        split at h
        · cases h
        · rename_i dbx hcr
          injection h with h
          have hdb : dbx = db2 := congrArg Prod.snd h
          subst hdb
          have h1 : keepsInactive db db1 := by
            by_cases hcap : mgr.max_sessions ≤ (existing.length : Int)
            · rw [if_pos hcap] at hev
              exact keepsInactive_terminate_all hev
            · rw [if_neg hcap] at hev
              injection hev with hev
              subst hev
              exact keepsInactive_refl _
          exact keepsInactive_trans h1 (keepsInactive_of_create hcr)

theorem keepsInactive_validate_session (mgr : SessionManager) (now : Time)
    (db : DB) (sid : String) (refresh : Bool) :
    keepsInactive db (validate_session mgr now db sid refresh).2 := by
  unfold validate_session
  cases h : validate_session_core mgr now db sid refresh with
  | error e => exact keepsInactive_refl _
  | ok r =>
      show keepsInactive db r.2
      unfold validate_session_core at h
      split at h
      · cases h
      · injection h with h
        rw [← h]
        exact keepsInactive_refl _
      · split at h
        · injection h with h
          rw [← h]
          exact keepsInactive_refl _
        · split at h
          · split at h
            · cases h
            · rename_i tr hts
              injection h with h
              rw [← h]
              exact keepsInactive_terminate_session hts
          · split at h
            · split at h
              · cases h
              · rename_i dbx hcu
                injection h with h
                rw [← h]
                exact keepsInactive_of_update (Or.inl rfl) hcu
            · injection h with h
              rw [← h]
              exact keepsInactive_refl _

theorem keepsInactive_cleanup {mgr : SessionManager} {now : Time} {db : DB}
    {res : SessionManager × DB}
    (h : cleanup_expired_sessions mgr now db = Except.ok res) :
    keepsInactive db res.2 := by
  unfold cleanup_expired_sessions at h
  by_cases hg : now - mgr.last_cleanup < mgr.cleanup_interval
  · rw [if_pos hg] at h
    injection h with h
    subst h
    exact keepsInactive_refl _
  · rw [if_neg hg] at h
    split at h
    · cases h
    · rename_i expired he
      split at h
      · cases h
      · rename_i db2 hs
        injection h with h
        rw [show res.2 = db2 from (congrArg Prod.snd h.symm)]
        exact keepsInactive_sweep_terminate hs

theorem keepsInactive_update_activity {now : Time} {db : DB} {sid : String}
    {db2 : DB} (h : update_activity now db sid = Except.ok db2) :
    keepsInactive db db2 :=
  keepsInactive_of_update (Or.inl rfl) h

theorem keepsInactive_handle_concurrent {now : Time} {db : DB} {uid : Int}
    {cur : String} {db2 : DB}
    (h : handle_concurrent_login now db uid cur = Except.ok db2) :
    keepsInactive db db2 := by
  unfold handle_concurrent_login at h
  cases hg : get_user_active_sessions db uid with
  | error e => rw [hg] at h; cases h
  | ok active =>
      rw [hg] at h
      exact keepsInactive_conc_loop h

theorem keepsInactive_applyOp (op : Op) (db : DB) :
    keepsInactive db (applyOp op db) := by
  cases op with
  | createOp mgr now fs req uid md =>
      simp only [applyOp]
      cases h : create_session mgr now fs req uid md db with
      | error e => exact keepsInactive_refl _
      | ok r =>
          obtain ⟨sd, db2⟩ := r
          exact keepsInactive_create_session h
  | validateOp mgr now sid refresh =>
      simp only [applyOp]
      exact keepsInactive_validate_session mgr now db sid refresh
  | updateActivityOp now sid =>
      simp only [applyOp]
      cases h : update_activity now db sid with
      | error e => exact keepsInactive_refl _
      | ok db2 => exact keepsInactive_update_activity h
  | terminateOp now sid =>
      simp only [applyOp]
      cases h : terminate_session now db sid with
      | error e => exact keepsInactive_refl _
      | ok r => exact keepsInactive_terminate_session h
  | cleanupOp mgr now =>
      simp only [applyOp]
      cases h : cleanup_expired_sessions mgr now db with
      | error e => exact keepsInactive_refl _
      | ok res => exact keepsInactive_cleanup h
  | concurrentOp now uid sid =>
      simp only [applyOp]
      cases h : handle_concurrent_login now db uid sid with
      | error e => exact keepsInactive_refl _
      | ok db2 => exact keepsInactive_handle_concurrent h

/-! Concrete scenario data used by counterexamples and witnesses. -/

/-- A session manager configured with max_sessions_per_user = 2
(session_timeout 30 min, cleanup_interval 15 min, constructed at time 0). -/
def mgrCap2 : SessionManager := ⟨2, 1800, 900, 0⟩

/-- A request from 127.0.0.1 with a user-agent header. -/
def reqLocal : Request := ⟨some ⟨"127.0.0.1"⟩, "ua"⟩

/-- Sessions A, B, C created in order for user 1 under a cap of 2. -/
def runABC : Except PyError (SessionRec × DB) :=
  match create_session mgrCap2 0 "A" reqLocal 1 none ⟨[], false⟩ with
  | Except.error e => Except.error e
  | Except.ok r1 =>
    match create_session mgrCap2 1 "B" reqLocal 1 none r1.2 with
    | Except.error e => Except.error e
    | Except.ok r2 => create_session mgrCap2 2 "C" reqLocal 1 none r2.2

/-- The database after creating sessions A and B for user 1. -/
def dbAB : DB :=
  match create_session mgrCap2 0 "A" reqLocal 1 none ⟨[], false⟩ with
  | Except.error _ => ⟨[], false⟩
  | Except.ok r1 =>
    match create_session mgrCap2 1 "B" reqLocal 1 none r1.2 with
    | Except.error _ => ⟨[], false⟩
    | Except.ok r2 => r2.2

/-- C1 counterexample: with max_sessions_per_user = 2, creating sessions
A, B, C in order for one user leaves ONLY C active — B is terminated too,
refuting the claim that exactly B and C stay active while only A is
deactivated. -/
theorem create_session_cap_cex :
    (runABC.toOption.map
      (fun p => p.2.sessions.map (fun r => (r.session_id, r.is_active)))) =
      some [("A", false), ("B", false), ("C", true)] := by decide

/-- C1 (amended): when the user's active-session count is at or over
max_sessions_per_user, create_session terminates ALL of that user's active
sessions — not just the oldest down to the cap — and then inserts the new
row: afterwards every previously active session of the user is inactive
and the new session is appended active; with max_sessions_per_user = 2 and
sessions A, B, C created in order, only C remains active. -/
theorem create_session_cap_evicts_all_active
    (mgr : SessionManager) (now : Time) (freshSid : String) (req : Request)
    (uid : Int) (md : Option (List (String × String))) (l : List SessionRec)
    (c : Client) (hc : req.client = some c)
    (hcap : mgr.max_sessions ≤
      ((l.filter (fun x => x.user_id = uid ∧ x.is_active)).length : Int)) :
    ∃ db2, create_session mgr now freshSid req uid md ⟨l, false⟩ =
        Except.ok (session_data_of now freshSid c.host req uid md, db2) ∧
      db2.sessions.length = l.length + 1 ∧
      (∀ (i : Nat) (r : SessionRec), l[i]? = some r → r.user_id = uid → r.is_active = true →
        ((db2.sessions[i]?).map (fun x => x.is_active)) = some false) ∧
      db2.sessions[l.length]? =
        some (session_data_of now freshSid c.host req uid md) := by
  refine ⟨_, create_session_run mgr now freshSid req uid md l c hc, ?_, ?_, ?_⟩
  · simp
  · intro i r hl hu ha
    have hlen : i < l.length := (List.getElem?_eq_some.mp hl).1
    have hmem : r ∈ l := List.getElem?_mem hl
    have hmemf : r ∈ l.filter (fun x => x.user_id = uid ∧ x.is_active) :=
      List.mem_filter.mpr ⟨hmem, by simp [hu, ha]⟩
    have hsid : r.session_id ∈ evictSids uid l := by
      exact List.mem_map_of_mem (fun s => s.session_id) hmemf
    have happ : ((l.map (evict mgr now uid l) ++
        [session_data_of now freshSid c.host req uid md])[i]?) =
        (l.map (evict mgr now uid l))[i]? := by
      rw [List.getElem?_append]
      exact if_pos (by simpa using hlen)
    show (((l.map (evict mgr now uid l) ++
        [session_data_of now freshSid c.host req uid md])[i]?).map
          (fun x => x.is_active)) = some false
    rw [happ, List.getElem?_map, hl]
    show some (evict mgr now uid l r).is_active = some false
    unfold evict
    rw [if_pos ⟨hcap, List.elem_iff.mpr hsid⟩]
    rfl
  · show (l.map (evict mgr now uid l) ++
      [session_data_of now freshSid c.host req uid md])[l.length]? = _
    rw [List.getElem?_append]
    rw [if_neg (by simp)]
    simp

/-- C1 witness: the amended theorem applied at the concrete C-creation
step of the A, B, C scenario. -/
theorem create_session_cap_evicts_all_active_witness :
    (mgrCap2.max_sessions ≤
      ((dbAB.sessions.filter (fun x => x.user_id = 1 ∧ x.is_active)).length : Int)) ∧
    ∃ db2, create_session mgrCap2 2 "C" reqLocal 1 none ⟨dbAB.sessions, false⟩ =
        Except.ok (session_data_of 2 "C" "127.0.0.1" reqLocal 1 none, db2) ∧
      db2.sessions.length = dbAB.sessions.length + 1 ∧
      (∀ (i : Nat) (r : SessionRec), dbAB.sessions[i]? = some r → r.user_id = 1 → r.is_active = true →
        ((db2.sessions[i]?).map (fun x => x.is_active)) = some false) ∧
      db2.sessions[dbAB.sessions.length]? =
        some (session_data_of 2 "C" "127.0.0.1" reqLocal 1 none) :=
  ⟨by decide,
   create_session_cap_evicts_all_active mgrCap2 2 "C" reqLocal 1 none
     dbAB.sessions ⟨"127.0.0.1"⟩ rfl (by decide)⟩

/-- Reduction of validate_session_core once the lookup has found a first
matching row: the result is decided by that row's is_active flag, its
last_activity against the timeout, and the refresh flag. -/
theorem validate_session_core_found (mgr : SessionManager) (now : Time)
    (l : List SessionRec) (sid : String) (r : SessionRec) (t : List SessionRec)
    (refresh : Bool)
    (hfl : l.filter (fun x => x.session_id = sid) = r :: t) :
    validate_session_core mgr now ⟨l, false⟩ sid refresh =
      (if (!r.is_active) = true then Except.ok (false, ⟨l, false⟩)
       else if mgr.session_timeout < now - r.last_activity then
         Except.ok (false, ⟨l.map (fun x => if x.session_id = sid
           then applyUpd (terminate_update now) x else x), false⟩)
       else if refresh = true then
         Except.ok (true, ⟨l.map (fun x => if x.session_id = sid
           then applyUpd (activity_update now) x else x), false⟩)
       else Except.ok (true, ⟨l, false⟩)) := by
  unfold validate_session_core
  rw [show crud_get_multi_sid ⟨l, false⟩ sid =
      Except.ok ((l.filter (fun x => x.session_id = sid)).take 1) from rfl, hfl]
  rfl

/-- C2 counterexample: an active session whose last_activity is older than
the timeout is indeed terminated by validate_session, but its
termination_reason stamp is "manual_termination" (the generic
terminate_session stamp), not "session_timeout". -/
theorem validate_session_timeout_reason_cex :
    (validate_session ⟨5, 10, 10, 0⟩ 100
        ⟨[⟨1, "s", "i", "u", ⟨"u"⟩, 0, 0, true, []⟩], false⟩ "s" true).1 = false ∧
    ((validate_session ⟨5, 10, 10, 0⟩ 100
        ⟨[⟨1, "s", "i", "u", ⟨"u"⟩, 0, 0, true, []⟩], false⟩ "s" true).2.sessions.map
      (fun r => (r.is_active, r.session_metadata.lookup "termination_reason"))) =
      [(false, some "manual_termination")] ∧
    (some "manual_termination" : Option String) ≠ some "session_timeout" := by
  decide

/-- C2 (amended): for every stored session that is active but whose
last_activity is older than session_timeout, validate_session returns
false and terminates every row with that session_id: afterwards the row
has is_active = false and is stamped with terminated_at and with
termination_reason = "manual_termination" — the generic terminate_session
stamp, not "session_timeout" (only the cleanup sweep writes that). -/
theorem validate_session_timeout_terminates
    (mgr : SessionManager) (now : Time) (l : List SessionRec) (sid : String)
    (r : SessionRec) (refresh : Bool)
    (hhead : (l.filter (fun x => x.session_id = sid)).head? = some r)
    (hact : r.is_active = true)
    (hexp : mgr.session_timeout < now - r.last_activity) :
    validate_session mgr now ⟨l, false⟩ sid refresh =
      (false, ⟨l.map (fun x => if x.session_id = sid
        then applyUpd (terminate_update now) x else x), false⟩) ∧
    ∀ x : SessionRec, (applyUpd (terminate_update now) x).is_active = false ∧
      (applyUpd (terminate_update now) x).session_metadata.lookup
        "termination_reason" = some "manual_termination" := by
  constructor
  · rcases hfl : l.filter (fun x => x.session_id = sid) with _ | ⟨r0, t⟩
    · rw [hfl] at hhead; cases hhead
    · rw [hfl] at hhead
      have hr0 : r0 = r := by injection hhead
      subst hr0
      unfold validate_session
      rw [validate_session_core_found mgr now l sid r0 t refresh hfl]
      rw [if_neg (by simp [hact]), if_pos hexp]
  · intro x
    exact ⟨rfl, rfl⟩

/-- C2 witness: the amended theorem applied to a concrete expired
session. -/
theorem validate_session_timeout_terminates_witness :
    ((([⟨1, "s", "i", "u", ⟨"u"⟩, (0 : Int), 0, true, []⟩] : List SessionRec).filter
        (fun x => x.session_id = "s")).head? =
      some (⟨1, "s", "i", "u", ⟨"u"⟩, (0 : Int), 0, true, []⟩ : SessionRec)) ∧
    ((10 : Int) < 100 - 0) ∧
    (validate_session ⟨5, 10, 10, 0⟩ 100
        ⟨[⟨1, "s", "i", "u", ⟨"u"⟩, 0, 0, true, []⟩], false⟩ "s" true =
      (false, ⟨([⟨1, "s", "i", "u", ⟨"u"⟩, 0, 0, true, []⟩] : List SessionRec).map
        (fun x => if x.session_id = "s"
          then applyUpd (terminate_update 100) x else x), false⟩) ∧
     ∀ x : SessionRec, (applyUpd (terminate_update 100) x).is_active = false ∧
       (applyUpd (terminate_update 100) x).session_metadata.lookup
         "termination_reason" = some "manual_termination") :=
  ⟨by decide, by decide,
   validate_session_timeout_terminates ⟨5, 10, 10, 0⟩ 100
     [⟨1, "s", "i", "u", ⟨"u"⟩, 0, 0, true, []⟩] "s"
     ⟨1, "s", "i", "u", ⟨"u"⟩, 0, 0, true, []⟩ true (by decide) (by decide)
     (by decide)⟩

/-- C3 counterexample: terminate_session on an id absent from storage
returns None (the Python method is annotated `-> None` and has no return
statement), not the boolean false the claim requires. -/
theorem terminate_session_return_cex :
    terminate_session 5 ⟨[], false⟩ "nope" =
      Except.ok ((none : Option Bool), ⟨[], false⟩) ∧
    (none : Option Bool) ≠ some false := ⟨rfl, by decide⟩

/-- C3 (amended): terminate_session never returns a boolean — its value is
None in every case; it unconditionally issues an update that leaves every
row with the given session_id inactive and stamped with terminated_at and
termination_reason = "manual_termination", and when the id is absent the
store is simply unchanged with no failure indication. -/
theorem terminate_session_returns_none (now : Time) (l : List SessionRec)
    (sid : String) :
    ∃ db2, terminate_session now ⟨l, false⟩ sid =
        Except.ok ((none : Option Bool), db2) ∧
      ((∀ x ∈ l, x.session_id ≠ sid) → db2 = ⟨l, false⟩) ∧
      (∀ x ∈ db2.sessions, x.session_id = sid → x.is_active = false ∧
        x.session_metadata.lookup "terminated_at" = some (isoStr now) ∧
        x.session_metadata.lookup "termination_reason" =
          some "manual_termination") := by
  refine ⟨⟨l.map (fun x : SessionRec => if x.session_id = sid
      then applyUpd (terminate_update now) x else x), false⟩, rfl, ?_, ?_⟩
  · intro habs
    have : ∀ x ∈ l, (if x.session_id = sid
        then applyUpd (terminate_update now) x else x) = x := by
      intro x hx
      rw [if_neg (habs x hx)]
    rw [show (⟨l.map (fun x => if x.session_id = sid
        then applyUpd (terminate_update now) x else x), false⟩ : DB) =
        ⟨l, false⟩ from by rw [List.map_congr_left this]; simp]
  · intro x hx hsid
    obtain ⟨y, hy, hxy⟩ := List.mem_map.mp hx
    by_cases hys : y.session_id = sid
    · rw [if_pos hys] at hxy
      rw [← hxy]
      exact ⟨rfl, rfl, rfl⟩
    · rw [if_neg hys] at hxy
      rw [← hxy] at hsid
      exact absurd hsid hys

/-- C3 witness: the amended theorem applied at an absent id over the empty
store. -/
theorem terminate_session_returns_none_witness :
    ∃ db2, terminate_session 7 ⟨[], false⟩ "absent" =
        Except.ok ((none : Option Bool), db2) ∧
      ((∀ x ∈ ([] : List SessionRec), x.session_id ≠ "absent") →
        db2 = ⟨[], false⟩) ∧
      (∀ x ∈ db2.sessions, x.session_id = "absent" → x.is_active = false ∧
        x.session_metadata.lookup "terminated_at" = some (isoStr 7) ∧
        x.session_metadata.lookup "termination_reason" =
          some "manual_termination") :=
  terminate_session_returns_none 7 [] "absent"

/-- C4 counterexample: a request with no client makes create_session raise
the incidental AttributeError from evaluating `request.client.host`, not a
deliberate InvalidRequest error (the repository's own test expects
`ValueError("Invalid request client")`, which the code never raises); no
CSRF token is produced anywhere in the result. -/
theorem create_session_missing_client_cex :
    create_session ⟨2, 1800, 900, 0⟩ 0 "s" ⟨none, "ua"⟩ 1 none ⟨[], false⟩ =
      Except.error PyError.attributeError ∧
    PyError.attributeError ≠ PyError.invalidRequest := ⟨rfl, by decide⟩

/-- C4 (amended): with no client on the request, create_session fails with
the incidental AttributeError from `request.client.host` (there is no
dedicated InvalidRequest check); with a client it succeeds and returns the
session_data record — which carries the fresh session_id, is_active = true
and last_activity = now and is appended to storage — but no csrf_token:
this manager issues no CSRF record at all. -/
theorem create_session_missing_client_and_success
    (mgr : SessionManager) (now : Time) (freshSid : String) (req : Request)
    (uid : Int) (md : Option (List (String × String))) (l : List SessionRec) :
    (req.client = none →
      create_session mgr now freshSid req uid md ⟨l, false⟩ =
        Except.error PyError.attributeError) ∧
    (∀ c : Client, req.client = some c →
      ∃ db2, create_session mgr now freshSid req uid md ⟨l, false⟩ =
          Except.ok (session_data_of now freshSid c.host req uid md, db2) ∧
        db2.sessions.getLast? =
          some (session_data_of now freshSid c.host req uid md) ∧
        (session_data_of now freshSid c.host req uid md).session_id = freshSid ∧
        (session_data_of now freshSid c.host req uid md).is_active = true ∧
        (session_data_of now freshSid c.host req uid md).last_activity = now) := by
  constructor
  · intro hnone
    obtain ⟨cl, ua⟩ := req
    cases hnone
    rfl
  · intro c hc
    refine ⟨_, create_session_run mgr now freshSid req uid md l c hc,
      ?_, rfl, rfl, rfl⟩
    exact List.getLast?_concat _

/-- C4 witness: the amended theorem applied to a clientless request and a
request from 127.0.0.1. -/
theorem create_session_missing_client_and_success_witness :
    (create_session mgrCap2 0 "s" ⟨none, "ua"⟩ 3 none ⟨[], false⟩ =
      Except.error PyError.attributeError) ∧
    (∃ db2, create_session mgrCap2 0 "s" reqLocal 3 none ⟨[], false⟩ =
        Except.ok (session_data_of 0 "s" "127.0.0.1" reqLocal 3 none, db2) ∧
      db2.sessions.getLast? =
        some (session_data_of 0 "s" "127.0.0.1" reqLocal 3 none) ∧
      (session_data_of 0 "s" "127.0.0.1" reqLocal 3 none).session_id = "s" ∧
      (session_data_of 0 "s" "127.0.0.1" reqLocal 3 none).is_active = true ∧
      (session_data_of 0 "s" "127.0.0.1" reqLocal 3 none).last_activity = 0) :=
  ⟨(create_session_missing_client_and_success mgrCap2 0 "s" ⟨none, "ua"⟩
      3 none []).1 rfl,
   (create_session_missing_client_and_success mgrCap2 0 "s" reqLocal
      3 none []).2 ⟨"127.0.0.1"⟩ rfl⟩

/-- C5 counterexample: with a raising storage layer, validate_session
swallows the exception and reports an ordinary validation failure (false)
— while the identical storage failure during create_session propagates to
the caller. -/
theorem validate_session_swallows_exception_cex :
    validate_session ⟨5, 1800, 900, 0⟩ 0 ⟨[], true⟩ "s" true =
      (false, ⟨[], true⟩) ∧
    create_session ⟨5, 1800, 900, 0⟩ 0 "s" ⟨some ⟨"h"⟩, "ua"⟩ 1 none ⟨[], true⟩ =
      Except.error PyError.storageError := ⟨rfl, rfl⟩

/-- C5 (amended): a storage-layer exception raised while create_session is
running propagates to the caller, but validate_session catches every
exception and reports an ordinary validation failure (false) instead of
re-raising it. -/
theorem storage_exception_propagation
    (mgr : SessionManager) (now : Time) (freshSid : String) (req : Request)
    (uid : Int) (md : Option (List (String × String))) (db : DB)
    (sid : String) (refresh : Bool) (c : Client)
    (hc : req.client = some c) (hf : db.fail = true) :
    create_session mgr now freshSid req uid md db =
      Except.error PyError.storageError ∧
    validate_session mgr now db sid refresh = (false, db) := by
  obtain ⟨l, fl⟩ := db
  cases hf
  obtain ⟨cl, ua⟩ := req
  cases hc
  exact ⟨rfl, rfl⟩

/-- C5 witness: the amended theorem applied to a raising storage layer. -/
theorem storage_exception_propagation_witness :
    ((⟨some ⟨"h"⟩, "ua"⟩ : Request).client = some ⟨"h"⟩) ∧
    ((⟨[], true⟩ : DB).fail = true) ∧
    (create_session ⟨5, 1800, 900, 0⟩ 0 "sid" ⟨some ⟨"h"⟩, "ua"⟩ 1 none ⟨[], true⟩ =
      Except.error PyError.storageError ∧
    validate_session ⟨5, 1800, 900, 0⟩ 0 ⟨[], true⟩ "sid" true =
      (false, ⟨[], true⟩)) :=
  ⟨rfl, rfl,
   storage_exception_propagation ⟨5, 1800, 900, 0⟩ 0 "sid" ⟨some ⟨"h"⟩, "ua"⟩
     1 none ⟨[], true⟩ "sid" true ⟨"h"⟩ rfl rfl⟩

theorem evict_session_id (mgr : SessionManager) (now : Time) (uid : Int)
    (l : List SessionRec) (r : SessionRec) :
    (evict mgr now uid l r).session_id = r.session_id := by
  unfold evict
  split <;> rfl

/-- Filtering by a session_id that only the appended row carries, after a
keyed update, yields exactly the updated appended row. -/
theorem filter_fresh_after_update (l2 : List SessionRec) (sd : SessionRec)
    (freshSid : String) (u : AdminSessionUpdate)
    (hl2 : ∀ x ∈ l2, x.session_id ≠ freshSid) (hsd : sd.session_id = freshSid) :
    ((l2 ++ [sd]).map (fun x => if x.session_id = freshSid
        then applyUpd u x else x)).filter
      (fun x => x.session_id = freshSid) = [applyUpd u sd] := by
  rw [List.map_append, List.filter_append]
  have h1 : (l2.map (fun x => if x.session_id = freshSid
      then applyUpd u x else x)).filter
      (fun x => x.session_id = freshSid) = [] := by
    refine List.filter_eq_nil_iff.mpr (fun x hx => ?_)
    obtain ⟨y, hy, hxy⟩ := List.mem_map.mp hx
    have hxs : x.session_id = y.session_id := by
      rw [← hxy]
      split <;> rfl
    simp [hxs, hl2 y hy]
  rw [h1]
  have h2 : (([sd].map (fun x => if x.session_id = freshSid
      then applyUpd u x else x))) = [applyUpd u sd] := by
    simp [hsd]
  rw [h2]
  simp [applyUpd_session_id, hsd]

/-- C6: create/validate round trip — for every successful create_session,
an immediate validate_session (same instant, within timeout) on the fresh
session_id reports success, and the stored session with that id has
is_active = true and user_id equal to the created user's id. Confirmed. -/
theorem create_validate_roundtrip
    (mgr : SessionManager) (now : Time) (freshSid : String) (req : Request)
    (uid : Int) (md : Option (List (String × String))) (l : List SessionRec)
    (c : Client) (hc : req.client = some c)
    (hfresh : ∀ x ∈ l, x.session_id ≠ freshSid)
    (htimeout : 0 ≤ mgr.session_timeout) :
    ∃ db1, create_session mgr now freshSid req uid md ⟨l, false⟩ =
        Except.ok (session_data_of now freshSid c.host req uid md, db1) ∧
      (validate_session mgr now db1 freshSid true).1 = true ∧
      (((validate_session mgr now db1 freshSid true).2.sessions.filter
          (fun x => x.session_id = freshSid)).map
            (fun x => (x.user_id, x.is_active))) = [(uid, true)] := by
  have hsid_evict : ∀ x ∈ l.map (evict mgr now uid l), x.session_id ≠ freshSid := by
    intro x hx
    obtain ⟨y, hy, hxy⟩ := List.mem_map.mp hx
    rw [← hxy, evict_session_id]
    exact hfresh y hy
  have hfilter2 : (l.map (evict mgr now uid l)).filter
      (fun x => x.session_id = freshSid) = [] := by
    refine List.filter_eq_nil_iff.mpr (fun x hx => ?_)
    simp [hsid_evict x hx]
  have hfl : ((l.map (evict mgr now uid l) ++
      [session_data_of now freshSid c.host req uid md]).filter
      (fun x => x.session_id = freshSid)) =
      [session_data_of now freshSid c.host req uid md] := by
    rw [List.filter_append, hfilter2]
    simp [session_data_of]
  have hcore := validate_session_core_found mgr now
      (l.map (evict mgr now uid l) ++
        [session_data_of now freshSid c.host req uid md])
      freshSid (session_data_of now freshSid c.host req uid md) [] true hfl
  rw [if_neg (by simp [session_data_of])] at hcore
  rw [if_neg (show ¬ mgr.session_timeout <
        now - (session_data_of now freshSid c.host req uid md).last_activity by
      rw [show (session_data_of now freshSid c.host req uid md).last_activity =
          now from rfl, sub_self]
      exact not_lt.mpr htimeout)] at hcore
  rw [if_pos rfl] at hcore
  have hval : validate_session mgr now
      ⟨l.map (evict mgr now uid l) ++
        [session_data_of now freshSid c.host req uid md], false⟩ freshSid true =
      (true, ⟨(l.map (evict mgr now uid l) ++
        [session_data_of now freshSid c.host req uid md]).map
          (fun x => if x.session_id = freshSid
            then applyUpd (activity_update now) x else x), false⟩) := by
    unfold validate_session
    rw [hcore]
  refine ⟨_, create_session_run mgr now freshSid req uid md l c hc, ?_, ?_⟩
  · rw [hval]
  · rw [hval]
    show (((l.map (evict mgr now uid l) ++
        [session_data_of now freshSid c.host req uid md]).map
          (fun x => if x.session_id = freshSid
            then applyUpd (activity_update now) x else x)).filter
        (fun x => x.session_id = freshSid)).map
          (fun x => (x.user_id, x.is_active)) = [(uid, true)]
    rw [filter_fresh_after_update (l.map (evict mgr now uid l))
        (session_data_of now freshSid c.host req uid md) freshSid
        (activity_update now) hsid_evict rfl]
    rfl

/-- C6 witness: the round-trip theorem applied to a fresh session for user
7 over the empty store. -/
theorem create_validate_roundtrip_witness :
    (∀ x ∈ ([] : List SessionRec), x.session_id ≠ "X") ∧
    ((0 : Int) ≤ (1800 : Int)) ∧
    ∃ db1, create_session ⟨5, 1800, 900, 0⟩ 0 "X" reqLocal 7 none ⟨[], false⟩ =
        Except.ok (session_data_of 0 "X" "127.0.0.1" reqLocal 7 none, db1) ∧
      (validate_session ⟨5, 1800, 900, 0⟩ 0 db1 "X" true).1 = true ∧
      (((validate_session ⟨5, 1800, 900, 0⟩ 0 db1 "X" true).2.sessions.filter
          (fun x => x.session_id = "X")).map
            (fun x => (x.user_id, x.is_active))) = [(7, true)] :=
  ⟨by simp, by decide,
   create_validate_roundtrip ⟨5, 1800, 900, 0⟩ 0 "X" reqLocal 7 none []
     ⟨"127.0.0.1"⟩ rfl (by simp) (by decide)⟩

/-- A cleanup call inside the rate gate returns manager and database
unchanged. -/
theorem cleanup_gated (mgr : SessionManager) (now : Time) (db : DB)
    (h : now - mgr.last_cleanup < mgr.cleanup_interval) :
    cleanup_expired_sessions mgr now db = Except.ok (mgr, db) := by
  unfold cleanup_expired_sessions
  rw [if_pos h]

/-- Closed form of an ungated cleanup call on a non-failing database:
last_cleanup is set to now and every active row older than the threshold
is terminated. -/
theorem cleanup_sweep_run (mgr : SessionManager) (t1 : Time)
    (l : List SessionRec)
    (hg : ¬ t1 - mgr.last_cleanup < mgr.cleanup_interval) :
    cleanup_expired_sessions mgr t1 ⟨l, false⟩ =
      Except.ok ({ mgr with last_cleanup := t1 }, ⟨l.map (fun r =>
        if ((l.filter (fun x => x.is_active ∧
            x.last_activity < t1 - mgr.session_timeout)).map
          (fun s => s.session_id)).contains r.session_id
        then applyUpd (cleanup_sweep_update t1) r else r), false⟩) := by
  have hstep : cleanup_expired_sessions mgr t1 ⟨l, false⟩ =
      (match sweep_terminate t1 ⟨l, false⟩ (l.filter (fun x => x.is_active ∧
          x.last_activity < t1 - mgr.session_timeout)) with
       | Except.error e => Except.error e
       | Except.ok db2 => Except.ok ({ mgr with last_cleanup := t1 }, db2)) := by
    unfold cleanup_expired_sessions
    rw [if_neg hg]
    rfl
  rw [hstep, sweep_terminate_eq]

/-- Re-running the sweep immediately finds nothing: after the sweep, no
row is both active and older than the threshold. -/
theorem sweep_resweep_empty (now th : Time) (l : List SessionRec) :
    ((l.map (fun r =>
        if ((l.filter (fun x => x.is_active ∧ x.last_activity < th)).map
            (fun s => s.session_id)).contains r.session_id
        then applyUpd (cleanup_sweep_update now) r else r)).filter
      (fun x => x.is_active ∧ x.last_activity < th)) = [] := by
  refine List.filter_eq_nil_iff.mpr (fun x hx => ?_)
  obtain ⟨y, hy, hxy⟩ := List.mem_map.mp hx
  by_cases hcon : ((l.filter (fun x => x.is_active ∧
      x.last_activity < th)).map (fun s => s.session_id)).contains y.session_id
  · rw [if_pos hcon] at hxy
    rw [← hxy]
    simp [applyUpd_sweep_is_active]
  · rw [if_neg hcon] at hxy
    rw [← hxy]
    intro hpred
    exact hcon (List.elem_iff.mpr (List.mem_map_of_mem (fun s => s.session_id)
      (List.mem_filter.mpr ⟨hy, hpred⟩)))

/-- The session manager of the cleanup scenario: cleanup_interval 10,
session_timeout 10, last_cleanup 0. -/
def mgrGate : SessionManager := ⟨5, 10, 10, 0⟩

/-- An active session whose last activity is far in the past. -/
def rOld : SessionRec := ⟨1, "a", "i", "u", ⟨"u"⟩, -100, -100, true, []⟩

/-- C7 counterexample: two cleanup calls separated by 6 time units
(interval 10): the first call, at 9, is inside the gate and does nothing;
the second, at 15, is outside the gate and terminates the expired session.
So a pair of calls separated by less than cleanup_interval can still
perform terminations on the second call — the universally quantified claim
fails (while the immediate-succession instance and the gating both hold). -/
theorem cleanup_within_interval_cex :
    cleanup_expired_sessions mgrGate 9 ⟨[rOld], false⟩ =
      Except.ok (mgrGate, ⟨[rOld], false⟩) ∧
    ((cleanup_expired_sessions mgrGate 15 ⟨[rOld], false⟩).toOption.map
      (fun p => p.2.sessions.map (fun r => r.is_active))) = some [false] ∧
    (15 : Int) - 9 < mgrGate.cleanup_interval :=
  ⟨rfl, by decide, by decide⟩

/-- C7 (amended): an immediately repeated cleanup_expired_sessions call
performs no terminations and leaves manager state and every stored session
unchanged; and after a call that actually swept (was not gated), any
second call less than cleanup_interval later is gated and is a no-op —
sweeps run at most once per cleanup_interval, tracked via last_cleanup. (A
second call within cleanup_interval of a GATED first call may still sweep,
so the pair-quantified form of the original claim fails.) -/
theorem cleanup_second_call_noop
    (mgr : SessionManager) (t1 t2 : Time) (db : DB)
    (mgr2 : SessionManager) (db2 : DB)
    (h1 : cleanup_expired_sessions mgr t1 db = Except.ok (mgr2, db2)) :
    cleanup_expired_sessions mgr2 t1 db2 = Except.ok (mgr2, db2) ∧
    (¬ t1 - mgr.last_cleanup < mgr.cleanup_interval →
      t2 - t1 < mgr.cleanup_interval →
      cleanup_expired_sessions mgr2 t2 db2 = Except.ok (mgr2, db2)) := by
  by_cases hg : t1 - mgr.last_cleanup < mgr.cleanup_interval
  · rw [cleanup_gated mgr t1 db hg] at h1
    injection h1 with h1
    have hm : mgr2 = mgr := (congrArg Prod.fst h1).symm
    have hd : db2 = db := (congrArg Prod.snd h1).symm
    subst hm
    subst hd
    exact ⟨cleanup_gated _ _ _ hg, fun hng _ => absurd hg hng⟩
  · obtain ⟨l, fl⟩ := db
    cases fl with
    | true =>
        exfalso
        have hfail : cleanup_expired_sessions mgr t1 ⟨l, true⟩ =
            Except.error PyError.storageError := by
          unfold cleanup_expired_sessions
          rw [if_neg hg]
          rfl
        rw [hfail] at h1
        cases h1
    | false =>
        rw [cleanup_sweep_run mgr t1 l hg] at h1
        injection h1 with h1
        have hm : mgr2 = { mgr with last_cleanup := t1 } :=
          (congrArg Prod.fst h1).symm
        have hd : db2 = ⟨l.map (fun r =>
            if ((l.filter (fun x => x.is_active ∧
                x.last_activity < t1 - mgr.session_timeout)).map
              (fun s => s.session_id)).contains r.session_id
            then applyUpd (cleanup_sweep_update t1) r else r), false⟩ :=
          (congrArg Prod.snd h1).symm
        subst hm
        subst hd
        constructor
        · by_cases h0 : t1 - t1 < mgr.cleanup_interval
          · exact cleanup_gated _ _ _ h0
          · rw [cleanup_sweep_run _ t1 _ (fun hcon => h0 hcon)]
            rw [show ((l.map (fun r =>
                if ((l.filter (fun x => x.is_active ∧
                    x.last_activity < t1 - mgr.session_timeout)).map
                  (fun s => s.session_id)).contains r.session_id
                then applyUpd (cleanup_sweep_update t1) r else r)).filter
              (fun x => x.is_active ∧
                x.last_activity < t1 - mgr.session_timeout)) = [] from
              sweep_resweep_empty t1 (t1 - mgr.session_timeout) l]
            simp
        · intro _ hlt
          exact cleanup_gated _ _ _ hlt

/-- C7 witness: the amended theorem applied to a concrete first call. -/
theorem cleanup_second_call_noop_witness :
    (cleanup_expired_sessions mgrGate 9 ⟨[rOld], false⟩ =
      Except.ok (mgrGate, ⟨[rOld], false⟩)) ∧
    (cleanup_expired_sessions mgrGate 9 ⟨[rOld], false⟩ =
      Except.ok (mgrGate, ⟨[rOld], false⟩) ∧
    (¬ (9 : Int) - mgrGate.last_cleanup < mgrGate.cleanup_interval →
      (15 : Int) - 9 < mgrGate.cleanup_interval →
      cleanup_expired_sessions mgrGate 15 ⟨[rOld], false⟩ =
        Except.ok (mgrGate, ⟨[rOld], false⟩))) :=
  ⟨rfl, cleanup_second_call_noop mgrGate 9 15 ⟨[rOld], false⟩ mgrGate
    ⟨[rOld], false⟩ rfl⟩

/-- C8: terminated-is-terminal — a stored session row with
is_active = false stays present and inactive across every SessionManager
operation (create_session, validate_session, update_activity,
terminate_session, cleanup_expired_sessions, handle_concurrent_login):
no operation ever sets a terminated record's is_active back to true.
Confirmed. -/
theorem terminated_is_terminal (op : Op) (db : DB) (i : Nat)
    (h : ((db.sessions[i]?).map (fun r => r.is_active)) = some false) :
    (((applyOp op db).sessions[i]?).map (fun r => r.is_active)) = some false :=
  keepsInactive_applyOp op db i h

/-- C8 witness: the invariant applied to a terminate_session step over a
store holding one already-terminated row. -/
theorem terminated_is_terminal_witness :
    ((((⟨[⟨1, "x", "i", "u", ⟨"u"⟩, 0, 0, false, []⟩], false⟩ : DB).sessions[0]?).map
        (fun r => r.is_active)) = some false) ∧
    ((((applyOp (Op.terminateOp 5 "x")
        ⟨[⟨1, "x", "i", "u", ⟨"u"⟩, 0, 0, false, []⟩], false⟩).sessions[0]?).map
        (fun r => r.is_active)) = some false) :=
  ⟨by decide,
   terminated_is_terminal (Op.terminateOp 5 "x")
     ⟨[⟨1, "x", "i", "u", ⟨"u"⟩, 0, 0, false, []⟩], false⟩ 0 (by decide)⟩

/-- C9: login-throttling thresholds of the spec-modelled
track_login_attempt — with login_max_attempts = 5, five failures for
(ip 10.0.0.1, user bob) leave the sixth failing call with allowed = false
and remaining = 0; an intervening success deletes both counters so the
next failure reports remaining = 4; and in general a failing call computes
allowed and remaining from effective_count = max(ip_count, username_count)
as effective_count ≤ max_attempts and max_attempts - effective_count. -/
theorem track_login_attempt_thresholds :
    ((track_login_attempt 5 3600 0
        (run_failures 5 3600 0 "10.0.0.1" "bob" 5 ⟨[]⟩) "10.0.0.1" "bob" false).1
      = (false, some 0)) ∧
    ((track_login_attempt 5 3600 0
        (track_login_attempt 5 3600 0
          (run_failures 5 3600 0 "10.0.0.1" "bob" 5 ⟨[]⟩) "10.0.0.1" "bob" true).2
        "10.0.0.1" "bob" false).1 = (true, some 4)) ∧
    (∀ (maxa : Nat) (w now : Time) (st : RLStore) (ip u : String),
      (track_login_attempt maxa w now st ip u false).1 =
        (decide (max (rl_increment now w st (rl_ip_key ip) 1).1
            (rl_increment now w (rl_increment now w st (rl_ip_key ip) 1).2
              (rl_user_key u) 1).1 ≤ maxa),
         some (maxa - max (rl_increment now w st (rl_ip_key ip) 1).1
            (rl_increment now w (rl_increment now w st (rl_ip_key ip) 1).2
              (rl_user_key u) 1).1))) := by
  refine ⟨by decide, by decide, ?_⟩
  intro maxa w now st ip u
  rfl

/-- C10: read-only validation frame — validate_session with
update_activity = false on an active, within-timeout session reports
success and returns the database completely unchanged: no field of any
stored record is written. Confirmed. -/
theorem validate_session_readonly_frame
    (mgr : SessionManager) (now : Time) (l : List SessionRec) (sid : String)
    (r : SessionRec)
    (hhead : (l.filter (fun x => x.session_id = sid)).head? = some r)
    (hact : r.is_active = true)
    (hfresh : now - r.last_activity ≤ mgr.session_timeout) :
    validate_session mgr now ⟨l, false⟩ sid false = (true, ⟨l, false⟩) := by
  rcases hfl : l.filter (fun x => x.session_id = sid) with _ | ⟨r0, t⟩
  · rw [hfl] at hhead; cases hhead
  · rw [hfl] at hhead
    have hr0 : r0 = r := by injection hhead
    subst hr0
    unfold validate_session
    rw [validate_session_core_found mgr now l sid r0 t false hfl]
    rw [if_neg (by simp [hact]), if_neg (not_lt.mpr hfresh),
      if_neg (by simp)]

/-- C10 witness: the frame theorem applied to a fresh concrete session. -/
theorem validate_session_readonly_frame_witness :
    ((([⟨1, "s", "i", "u", ⟨"u"⟩, (0 : Int), 0, true, []⟩] : List SessionRec).filter
        (fun x => x.session_id = "s")).head? =
      some (⟨1, "s", "i", "u", ⟨"u"⟩, (0 : Int), 0, true, []⟩ : SessionRec)) ∧
    ((5 : Int) - 0 ≤ (10 : Int)) ∧
    validate_session ⟨5, 10, 10, 0⟩ 5
        ⟨[⟨1, "s", "i", "u", ⟨"u"⟩, 0, 0, true, []⟩], false⟩ "s" false =
      (true, ⟨[⟨1, "s", "i", "u", ⟨"u"⟩, 0, 0, true, []⟩], false⟩) :=
  ⟨by decide, by decide,
   validate_session_readonly_frame ⟨5, 10, 10, 0⟩ 5
     [⟨1, "s", "i", "u", ⟨"u"⟩, 0, 0, true, []⟩] "s"
     ⟨1, "s", "i", "u", ⟨"u"⟩, 0, 0, true, []⟩ (by decide) (by decide)
     (by decide)⟩

end CrudAdmin
